import Mathlib

/-!
Shallow embedding of the fordpass-api repository (fordpass_api.py and
battery_monitor.py), together with theorems settling the specification
claims about it.

Conventions of the embedding:
* Python floats are modelled as exact rationals (ℚ); `time.time()` is an
  explicit `now : ℚ` parameter threaded through each call.
* Python `None` is `Option.none`; `dict.get(k)` on a typed record becomes an
  `Option`-valued field; `dict.get(k, {}).get("value")` is flattened into a
  single `Option` field holding the metric value.
* `requests.post`/`requests.get` responses are supplied by an `Env` value,
  one response per endpoint; the list of requests actually issued by a call
  is returned alongside the result, so cache hits are observable.
* A raised Python exception is `Except.error` carrying the message string
  built exactly as the source builds it.
* Mutation of `self` fields is explicit state passing on `APIState`.
-/

/-- Python truthiness of an optional string (`if self.ford_token ...`):
`None` and the empty string are falsy. -/
def strTruthy : Option String → Bool
  | none => false
  | some s => !(s == "")

/-- Python truthiness of an optional number: `None` and `0` are falsy. -/
def qTruthy : Option ℚ → Bool
  | none => false
  | some q => !(q == 0)

/-- Python `x or 0` on an optional numeric value: `None` and `0.0` are both
falsy and give `0`, any other number is returned unchanged, so the result
is `getD 0`. -/
def orZero (o : Option ℚ) : ℚ := o.getD 0

/-- Python `x or y` on optional strings (`value or "Not available"`). -/
def pyOrStr (o : Option String) (d : String) : String :=
  match o with
  | none => d
  | some s => if s == "" then d else s

/-- Python `x or y` on two optional numbers
(`tire.get("wheelPlacardFront") or tire.get("wheelPlacardRear")`). -/
def pyOrQ (a b : Option ℚ) : Option ℚ :=
  if qTruthy a then a else b

/-- Python 3 `round` on a rational: round half to even, computed on the
numerator and denominator with integer arithmetic only. -/
def pyRound (q : ℚ) : ℤ :=
  let d : ℤ := (q.den : ℤ)
  let f : ℤ := q.num.fdiv d
  let rem : ℤ := q.num - f * d
  if 2 * rem < d then f
  else if 2 * rem > d then f + 1
  else if f % 2 = 0 then f else f + 1

/-- The unit-conversion constant `0.621371` (kilometers to miles). -/
def kmToMiles : ℚ := 621371 / 1000000

/-- The three upstream HTTP endpoints the client can hit.  A value of this
type in a request log records one network round-trip. -/
inductive Request where
  | primaryAuth
  | tokenExchange
  | telemetry
deriving DecidableEq

/-- Response of the POST to `ford_token_url` as consumed by
`get_ford_token`: HTTP status code, the decoded JSON fields
`status`, `access_token`, `message`, and the raw body text. -/
structure FordAuthResponse where
  status_code : ℕ
  status : Option ℤ
  access_token : Option String
  message : Option String
  text : String
deriving DecidableEq

/-- Response of the POST to `autonomic_token_url` as consumed by
`get_autonomic_token`. -/
structure ExchangeResponse where
  status_code : ℕ
  access_token : Option String
  expires_in : Option ℤ
  text : String
deriving DecidableEq

/-- Entry of the `doorStatus` / `doorLockStatus` metric arrays. -/
structure DoorEntry where
  vehicleDoor : Option String
  value : Option String
deriving DecidableEq

/-- Entry of the `tirePressure` metric array. -/
structure TireEntry where
  vehicleWheel : Option String
  value : Option ℚ
  wheelPlacardFront : Option ℚ
  wheelPlacardRear : Option ℚ
deriving DecidableEq

/-- Entry of the `tirePressureStatus` metric array. -/
structure TireStatusEntry where
  vehicleWheel : Option String
  value : Option String
deriving DecidableEq

/-- Entry of the `tirePressureSystemStatus` metric array. -/
structure TireSysEntry where
  value : Option String
deriving DecidableEq

/-- The `location` object inside the `position` metric value. -/
structure LocationData where
  lat : Option ℚ
  lon : Option ℚ
  alt : Option ℚ
deriving DecidableEq

/-- The `value` object of the `position` metric. -/
structure PositionValue where
  location : Option LocationData
deriving DecidableEq

/-- The `position` metric: a `value` object and an `updateTime`. -/
structure PositionMetric where
  value : Option PositionValue
  updateTime : Option String
deriving DecidableEq

/-- The `value` object of the `heading` metric. -/
structure HeadingValue where
  heading : Option ℚ
deriving DecidableEq

/-- The `heading` metric wrapper. -/
structure HeadingMetric where
  value : Option HeadingValue
deriving DecidableEq

/-- One entry of the `indicators` metric object. -/
structure IndicatorEntry where
  value : Option Bool
  additionalInfo : Option String
deriving DecidableEq

/-- One entry of the `customMetrics` metric object. -/
structure CustomEntry where
  value : Option ℚ
deriving DecidableEq

/-- The `metrics` object of the telemetry JSON document, restricted to the
metric names the source code consults.  A scalar field holds
`metrics.get(name, {}).get("value")`; an absent metric is `none`. -/
structure Metrics where
  batteryStateOfCharge : Option ℚ := none
  xevBatteryStateOfCharge : Option ℚ := none
  xevBatteryActualStateOfCharge : Option ℚ := none
  xevBatteryRange : Option ℚ := none
  xevBatteryCapacity : Option ℚ := none
  xevBatteryEnergyRemaining : Option ℚ := none
  xevBatteryTemperature : Option ℚ := none
  xevBatteryVoltage : Option ℚ := none
  xevBatteryPerformanceStatus : Option String := none
  xevBatteryTimeToFullCharge : Option ℚ := none
  doorStatus : List DoorEntry := []
  doorLockStatus : List DoorEntry := []
  hoodStatus : Option String := none
  alarmStatus : Option String := none
  odometer : Option ℚ := none
  tirePressure : List TireEntry := []
  tirePressureStatus : List TireStatusEntry := []
  tirePressureSystemStatus : Option (List TireSysEntry) := none
  position : Option PositionMetric := none
  heading : Option HeadingMetric := none
  compassDirection : Option String := none
  outsideTemperature : Option ℚ := none
  ambientTemp : Option ℚ := none
  engineCoolantTemp : Option ℚ := none
  speed : Option ℚ := none
  ignitionStatus : Option String := none
  oilLifeRemaining : Option ℚ := none
  parkingBrakeStatus : Option String := none
  gearLeverPosition : Option String := none
  hybridVehicleModeStatus : Option String := none
  displaySystemOfMeasure : Option String := none
  indicators : List (String × IndicatorEntry) := []
  xevPlugChargerStatus : Option String := none
  xevBatteryChargeDisplayStatus : Option String := none
  xevBatteryChargerCurrentOutput : Option ℚ := none
  xevBatteryChargerVoltageOutput : Option ℚ := none
  xevEvseBatteryDcVoltageOutput : Option ℚ := none
  xevEvseBatteryDcCurrentOutput : Option ℚ := none
  xevChargeStationPowerType : Option String := none
  xevChargeStationCommunicationStatus : Option String := none
  customMetrics : List (String × CustomEntry) := []
  tripFuelEconomy : Option ℚ := none
  tripXevBatteryRangeRegenerated : Option ℚ := none
  tripXevBatteryChargeRegenerated : Option ℚ := none
  tripXevBatteryDistanceAccumulated : Option ℚ := none
deriving DecidableEq

/-- The decoded telemetry JSON document (`status_data`). -/
structure RawStatus where
  metrics : Metrics
deriving DecidableEq

/-- Response of the GET to the telemetry endpoint. -/
structure TelemetryResponse where
  status_code : ℕ
  json : RawStatus
  text : String
deriving DecidableEq

/-- The network oracle for one call tree: the response each endpoint would
return if hit. -/
structure Env where
  primary : FordAuthResponse
  exchange : ExchangeResponse
  telemetry : TelemetryResponse
deriving DecidableEq

/-- Token storage of `FordPassAPI.__init__`: `self.ford_token`,
`self.autonomic_token` and the single shared `self.token_expiration`
(initially `None`, `None`, `0`). -/
structure APIState where
  ford_token : Option String
  autonomic_token : Option String
  token_expiration : ℚ
deriving DecidableEq

/-- The initial token storage set up by `FordPassAPI.__init__`. -/
def initAPIState : APIState :=
  { ford_token := none, autonomic_token := none, token_expiration := 0 }

/-- `FordPassAPI.get_ford_token`: return the cached primary token while it
is truthy and unexpired, otherwise POST credentials to the primary auth
endpoint; on HTTP 200 with embedded `status == 200` cache the returned
`access_token` with a 5-minute expiration, otherwise raise (the inner
`Exception` is re-wrapped by the outer `except` clause). -/
def get_ford_token (env : Env) (st : APIState) (now : ℚ) :
    Except String (Option String) × APIState × List Request :=
  if strTruthy st.ford_token ∧ now < st.token_expiration then
    (.ok st.ford_token, st, [])
  else
    let r := env.primary
    if r.status_code = 200 then
      if r.status = some 200 then
        (.ok r.access_token,
         { st with ford_token := r.access_token, token_expiration := now + 300 },
         [Request.primaryAuth])
      else
        (.error ("Ford token request failed: Ford authentication failed: "
                  ++ r.message.getD "Unknown error"),
         st, [Request.primaryAuth])
    else
      (.error ("Ford token request failed: Ford authentication failed: "
                ++ toString r.status_code ++ " - " ++ r.text),
       st, [Request.primaryAuth])

/-- `FordPassAPI.get_autonomic_token`: return the cached exchange token
while it is truthy and unexpired; otherwise obtain a primary token via
`get_ford_token` (whose exception propagates unwrapped) and POST the
token-exchange form; on HTTP 200 cache the returned `access_token` with
`token_expiration = now + expires_in (default 3600) - 60`. -/
def get_autonomic_token (env : Env) (st : APIState) (now : ℚ) :
    Except String (Option String) × APIState × List Request :=
  if strTruthy st.autonomic_token ∧ now < st.token_expiration then
    (.ok st.autonomic_token, st, [])
  else
    match get_ford_token env st now with
    | (.error e, st1, reqs1) => (.error e, st1, reqs1)
    | (.ok _ford, st1, reqs1) =>
      let r := env.exchange
      if r.status_code = 200 then
        (.ok r.access_token,
         { st1 with autonomic_token := r.access_token,
                    token_expiration := now + ((r.expires_in.getD 3600 : ℤ) : ℚ) - 60 },
         reqs1 ++ [Request.tokenExchange])
      else
        (.error ("Autonomic token request failed: Autonomic authentication failed: "
                  ++ toString r.status_code ++ " - " ++ r.text),
         st1, reqs1 ++ [Request.tokenExchange])

/-- `FordPassAPI.get_auth_token` just delegates to `get_autonomic_token`. -/
def get_auth_token (env : Env) (st : APIState) (now : ℚ) :
    Except String (Option String) × APIState × List Request :=
  get_autonomic_token env st now

/-- `FordPassAPI.get_vehicle_status`: obtain an auth token (its exception
propagates unwrapped, the token call is outside the `try`), GET the
telemetry endpoint, and return the decoded document on HTTP 200; otherwise
raise, re-wrapped by the outer `except` clause. -/
def get_vehicle_status (env : Env) (st : APIState) (now : ℚ) :
    Except String RawStatus × APIState × List Request :=
  match get_auth_token env st now with
  | (.error e, st1, reqs1) => (.error e, st1, reqs1)
  | (.ok _tok, st1, reqs1) =>
    let r := env.telemetry
    if r.status_code = 200 then
      (.ok r.json, st1, reqs1 ++ [Request.telemetry])
    else
      (.error ("Vehicle status request failed: Status request failed: "
                ++ toString r.status_code ++ " - " ++ r.text),
       st1, reqs1 ++ [Request.telemetry])

/-- Dictionary insertion with Python `dict` semantics: assigning to an
existing key overwrites it in place, a new key is appended. -/
def dictInsert {α β : Type} [BEq α] (d : List (α × β)) (k : α) (v : β) :
    List (α × β) :=
  if d.any (fun p => p.1 == k) then
    d.map (fun p => if p.1 == k then (k, v) else p)
  else d ++ [(k, v)]

/-- Python `dict.get(k)`: the value stored under the first matching key. -/
def dictGet {α β : Type} [BEq α] (d : List (α × β)) (k : α) : Option β :=
  (d.find? (fun p => p.1 == k)).map (fun p => p.2)

/-- Shared skeleton of every projection accessor of `FordPassAPI`: fetch the
raw status inside a `try`, run the body on it, and turn any raised
exception (from the fetch or from the body) into the accessor's
`"Unable to retrieve ..."` string. -/
def projectStatus {α : Type} (errPrefix : String)
    (body : RawStatus → Except String α)
    (env : Env) (st : APIState) (now : ℚ) :
    Sum α String × APIState × List Request :=
  match get_vehicle_status env st now with
  | (.error e, st1, reqs) => (.inr (errPrefix ++ e), st1, reqs)
  | (.ok status, st1, reqs) =>
    match body status with
    | .ok a => (.inl a, st1, reqs)
    | .error e => (.inr (errPrefix ++ e), st1, reqs)

/-- The dictionary built by `FordPassAPI.get_battery_status`.  Every field
is the consulted metric's value (absent metric ⇒ `none`), except
`ev_battery_range_miles`, which the source computes as
`round((metrics.get("xevBatteryRange", {}).get("value") or 0) * 0.621371)`
and is therefore always a number. -/
structure BatteryInfo where
  main_battery_charge : Option ℚ
  ev_battery_charge : Option ℚ
  ev_battery_actual_charge : Option ℚ
  ev_battery_range_km : Option ℚ
  ev_battery_range_miles : ℤ
  ev_battery_capacity_kwh : Option ℚ
  ev_battery_energy_remaining_kwh : Option ℚ
  ev_battery_temperature : Option ℚ
  ev_battery_voltage : Option ℚ
  ev_battery_performance : Option String
  ev_time_to_full_charge : Option ℚ
deriving DecidableEq

/-- Body of `get_battery_status`: the pure projection of the metrics into
the battery dictionary. -/
def batteryInfoOf (m : Metrics) : BatteryInfo :=
  { main_battery_charge := m.batteryStateOfCharge
    ev_battery_charge := m.xevBatteryStateOfCharge
    ev_battery_actual_charge := m.xevBatteryActualStateOfCharge
    ev_battery_range_km := m.xevBatteryRange
    ev_battery_range_miles := pyRound (orZero m.xevBatteryRange * kmToMiles)
    ev_battery_capacity_kwh := m.xevBatteryCapacity
    ev_battery_energy_remaining_kwh := m.xevBatteryEnergyRemaining
    ev_battery_temperature := m.xevBatteryTemperature
    ev_battery_voltage := m.xevBatteryVoltage
    ev_battery_performance := m.xevBatteryPerformanceStatus
    ev_time_to_full_charge := m.xevBatteryTimeToFullCharge }

/-- `FordPassAPI.get_battery_status`. -/
def get_battery_status (env : Env) (st : APIState) (now : ℚ) :
    Sum BatteryInfo String × APIState × List Request :=
  projectStatus "Unable to retrieve battery information: "
    (fun s => .ok (batteryInfoOf s.metrics)) env st now

/-- The dictionary built by `FordPassAPI.get_door_status`. -/
structure DoorInfo where
  doors : List (Option String × Option String)
  locks : List (Option String × Option String)
  hood : Option String
  alarm : Option String
deriving DecidableEq

/-- Body of `get_door_status`. -/
def doorInfoOf (m : Metrics) : DoorInfo :=
  { doors := m.doorStatus.foldl
      (fun acc d => dictInsert acc d.vehicleDoor d.value) []
    locks := m.doorLockStatus.foldl
      (fun acc l => dictInsert acc l.vehicleDoor l.value) []
    hood := m.hoodStatus
    alarm := m.alarmStatus }

/-- `FordPassAPI.get_door_status`. -/
def get_door_status (env : Env) (st : APIState) (now : ℚ) :
    Sum DoorInfo String × APIState × List Request :=
  projectStatus "Unable to retrieve door information: "
    (fun s => .ok (doorInfoOf s.metrics)) env st now

/-- Per-wheel entry of the `pressures` dictionary of `get_tire_status`. -/
structure TirePressureInfo where
  pressure : Option ℚ
  recommended : Option ℚ
deriving DecidableEq

/-- The dictionary built by `FordPassAPI.get_tire_status`. -/
structure TireInfo where
  pressures : List (Option String × TirePressureInfo)
  statuses : List (String × Option String)
  system_status : Option String
deriving DecidableEq

/-- `metrics.get("tirePressureSystemStatus", [{}])[0].get("value")`: an
absent metric defaults to `[{}]` whose first element yields `none`; a
present but empty array raises `IndexError`. -/
def tireSystemStatusOf : Option (List TireSysEntry) →
    Except String (Option String)
  | none => .ok none
  | some [] => .error "list index out of range"
  | some (e :: _) => .ok e.value

/-- Body of `get_tire_status`.  A falsy `vehicleWheel` in
`tirePressureStatus` is stored under the key `"overall"`. -/
def tireInfoOf (m : Metrics) : Except String TireInfo := do
  let sys ← tireSystemStatusOf m.tirePressureSystemStatus
  let prs := m.tirePressure.foldl
    (fun acc t => dictInsert acc t.vehicleWheel
      ⟨t.value, pyOrQ t.wheelPlacardFront t.wheelPlacardRear⟩) []
  let sts := m.tirePressureStatus.foldl
    (fun acc t =>
      if strTruthy t.vehicleWheel then
        dictInsert acc (t.vehicleWheel.getD "") t.value
      else
        dictInsert acc "overall" t.value) []
  return { pressures := prs, statuses := sts, system_status := sys }

/-- `FordPassAPI.get_tire_status`. -/
def get_tire_status (env : Env) (st : APIState) (now : ℚ) :
    Sum TireInfo String × APIState × List Request :=
  projectStatus "Unable to retrieve tire information: "
    (fun s => tireInfoOf s.metrics) env st now

/-- The dictionary built by `FordPassAPI.get_location`. -/
structure LocationInfo where
  latitude : Option ℚ
  longitude : Option ℚ
  altitude : Option ℚ
  heading_degrees : Option ℚ
  compass_direction : Option String
  update_time : Option String
deriving DecidableEq

/-- Body of `get_location`: navigate
`position.value.location` with `{}` defaults at each step. -/
def locationInfoOf (m : Metrics) : LocationInfo :=
  let pos : Option LocationData :=
    m.position.bind (fun p => p.value.bind (fun v => v.location))
  { latitude := pos.bind (fun l => l.lat)
    longitude := pos.bind (fun l => l.lon)
    altitude := pos.bind (fun l => l.alt)
    heading_degrees := m.heading.bind (fun h => h.value.bind (fun v => v.heading))
    compass_direction := m.compassDirection
    update_time := m.position.bind (fun p => p.updateTime) }

/-- `FordPassAPI.get_location`. -/
def get_location (env : Env) (st : APIState) (now : ℚ) :
    Sum LocationInfo String × APIState × List Request :=
  projectStatus "Unable to retrieve location information: "
    (fun s => .ok (locationInfoOf s.metrics)) env st now

/-- The dictionary built by `FordPassAPI.get_climate_status`. -/
structure ClimateInfo where
  outside_temperature_c : Option ℚ
  outside_temperature_f : Option ℚ
  ambient_temp : Option ℚ
  engine_coolant_temp : Option ℚ
deriving DecidableEq

/-- Body of `get_climate_status`:
`outside_temp_c * 9/5 + 32 if outside_temp_c is not None else None`. -/
def climateInfoOf (m : Metrics) : ClimateInfo :=
  { outside_temperature_c := m.outsideTemperature
    outside_temperature_f := m.outsideTemperature.map (fun c => c * 9/5 + 32)
    ambient_temp := m.ambientTemp
    engine_coolant_temp := m.engineCoolantTemp }

/-- `FordPassAPI.get_climate_status`. -/
def get_climate_status (env : Env) (st : APIState) (now : ℚ) :
    Sum ClimateInfo String × APIState × List Request :=
  projectStatus "Unable to retrieve climate information: "
    (fun s => .ok (climateInfoOf s.metrics)) env st now

/-- The dictionary built by `FordPassAPI.get_vehicle_info`. -/
structure VehicleInfo where
  odometer_km : Option ℚ
  odometer_miles : Option ℤ
  speed : Option ℚ
  ignition_status : Option String
  oil_life_remaining : Option ℚ
  parking_brake_status : Option String
  gear_position : Option String
  hybrid_vehicle_mode : Option String
  display_units : Option String
deriving DecidableEq

/-- Body of `get_vehicle_info`:
`round(odometer_km * 0.621371) if odometer_km is not None else None`. -/
def vehicleInfoOf (m : Metrics) : VehicleInfo :=
  { odometer_km := m.odometer
    odometer_miles := m.odometer.map (fun km => pyRound (km * kmToMiles))
    speed := m.speed
    ignition_status := m.ignitionStatus
    oil_life_remaining := m.oilLifeRemaining
    parking_brake_status := m.parkingBrakeStatus
    gear_position := m.gearLeverPosition
    hybrid_vehicle_mode := m.hybridVehicleModeStatus
    display_units := m.displaySystemOfMeasure }

/-- `FordPassAPI.get_vehicle_info`. -/
def get_vehicle_info (env : Env) (st : APIState) (now : ℚ) :
    Sum VehicleInfo String × APIState × List Request :=
  projectStatus "Unable to retrieve vehicle information: "
    (fun s => .ok (vehicleInfoOf s.metrics)) env st now

/-- Body of `get_warning_indicators`: keep the indicators whose `value`
is `True`, mapped to their `additionalInfo` (default `""`). -/
def warningIndicatorsOf (m : Metrics) : List (String × String) :=
  m.indicators.foldl
    (fun acc kv =>
      if kv.2.value == some true then
        dictInsert acc kv.1 (kv.2.additionalInfo.getD "")
      else acc) []

/-- `FordPassAPI.get_warning_indicators`. -/
def get_warning_indicators (env : Env) (st : APIState) (now : ℚ) :
    Sum (List (String × String)) String × APIState × List Request :=
  projectStatus "Unable to retrieve warning indicators: "
    (fun s => .ok (warningIndicatorsOf s.metrics)) env st now

/-- The dictionary built by `FordPassAPI.get_ev_charging_status`. -/
structure ChargingInfo where
  plug_status : Option String
  charger_status : Option String
  charger_current_output : Option ℚ
  charger_voltage_output : Option ℚ
  dc_voltage_output : Option ℚ
  dc_current_output : Option ℚ
  charger_type : Option String
  communication_status : Option String
deriving DecidableEq

/-- Body of `get_ev_charging_status`. -/
def chargingInfoOf (m : Metrics) : ChargingInfo :=
  { plug_status := m.xevPlugChargerStatus
    charger_status := m.xevBatteryChargeDisplayStatus
    charger_current_output := m.xevBatteryChargerCurrentOutput
    charger_voltage_output := m.xevBatteryChargerVoltageOutput
    dc_voltage_output := m.xevEvseBatteryDcVoltageOutput
    dc_current_output := m.xevEvseBatteryDcCurrentOutput
    charger_type := m.xevChargeStationPowerType
    communication_status := m.xevChargeStationCommunicationStatus }

/-- `FordPassAPI.get_ev_charging_status`. -/
def get_ev_charging_status (env : Env) (st : APIState) (now : ℚ) :
    Sum ChargingInfo String × APIState × List Request :=
  projectStatus "Unable to retrieve EV charging information: "
    (fun s => .ok (chargingInfoOf s.metrics)) env st now

/-- Substring test (Python `sub in key`). -/
def containsSub (s sub : String) : Bool :=
  s.toList.tails.any (fun t => sub.toList.isPrefixOf t)

/-- The four scores scraped from `customMetrics` by `get_trip_info`,
in source order: trip length, acceleration, deceleration, cruising. -/
structure TripScores where
  trip_length : Option ℚ
  acceleration_score : Option ℚ
  deceleration_score : Option ℚ
  cruising_score : Option ℚ
deriving DecidableEq

/-- The `for key, value in custom_metrics.items()` loop of
`get_trip_info`: an `elif` chain keyed on substring matches, each match
overwriting the corresponding variable. -/
def tripScoresOf (cm : List (String × CustomEntry)) : TripScores :=
  cm.foldl
    (fun acc kv =>
      if containsSub kv.1 "trip-sum-length" then
        { acc with trip_length := kv.2.value }
      else if containsSub kv.1 "accumulated-acceleration-coaching-score" then
        { acc with acceleration_score := kv.2.value }
      else if containsSub kv.1 "accumulated-deceleration-coaching-score" then
        { acc with deceleration_score := kv.2.value }
      else if containsSub kv.1 "accumulated-vehicle-speed-cruising-coaching-score" then
        { acc with cruising_score := kv.2.value }
      else acc)
    { trip_length := none, acceleration_score := none,
      deceleration_score := none, cruising_score := none }

/-- The dictionary built by `FordPassAPI.get_trip_info`. -/
structure TripInfo where
  trip_length : Option ℚ
  trip_fuel_economy : Option ℚ
  trip_battery_range_regenerated : Option ℚ
  trip_battery_charge_regenerated : Option ℚ
  trip_battery_distance : Option ℚ
  acceleration_score : Option ℚ
  deceleration_score : Option ℚ
  cruising_score : Option ℚ
deriving DecidableEq

/-- Body of `get_trip_info`. -/
def tripInfoOf (m : Metrics) : TripInfo :=
  let sc := tripScoresOf m.customMetrics
  { trip_length := sc.trip_length
    trip_fuel_economy := m.tripFuelEconomy
    trip_battery_range_regenerated := m.tripXevBatteryRangeRegenerated
    trip_battery_charge_regenerated := m.tripXevBatteryChargeRegenerated
    trip_battery_distance := m.tripXevBatteryDistanceAccumulated
    acceleration_score := sc.acceleration_score
    deceleration_score := sc.deceleration_score
    cruising_score := sc.cruising_score }

/-- `FordPassAPI.get_trip_info`. -/
def get_trip_info (env : Env) (st : APIState) (now : ℚ) :
    Sum TripInfo String × APIState × List Request :=
  projectStatus "Unable to retrieve trip information: "
    (fun s => .ok (tripInfoOf s.metrics)) env st now

/-- Python f-string rendering of a possibly-`None` integer
(`None` prints as `"None"`). -/
def pyStrOfOptInt : Option ℤ → String
  | none => "None"
  | some z => toString z

/-- Python f-string rendering of a possibly-`None` number.  (The embedding
renders rationals with Lean's `toString`; no claim depends on the digits
of a non-integer float.) -/
def pyStrOfOptQ : Option ℚ → String
  | none => "None"
  | some q => toString q

/-- The `vehicle_status` sub-dictionary of `get_status_summary`. -/
structure SummaryVehicle where
  odometer : String
  ignition : String
  doors_locked : String
  alarm : String
deriving DecidableEq

/-- The `battery_status` sub-dictionary of `get_status_summary`. -/
structure SummaryBattery where
  ev_charge : String
  range : String
  time_to_full_charge : String
deriving DecidableEq

/-- The `climate` sub-dictionary of `get_status_summary`. -/
structure SummaryClimate where
  outside_temp : String
deriving DecidableEq

/-- The `location` sub-dictionary of `get_status_summary`. -/
structure SummaryLocation where
  latitude : Option ℚ
  longitude : Option ℚ
deriving DecidableEq

/-- The summary dictionary built by `get_status_summary`. -/
structure StatusSummary where
  vehicle_status : SummaryVehicle
  battery_status : SummaryBattery
  climate : SummaryClimate
  location : SummaryLocation
  tires : String
deriving DecidableEq

/-- The `TypeError` message raised when a projection that failed (and hence
returned an error string) is subscripted with a string key inside
`get_status_summary`. -/
def strIndicesErr : String := "string indices must be integers"

/-- The `climate` line of the summary:
`f"{round(outside_temperature_f)}°F ({outside_temperature_c}°C)"` guarded by
the truthiness of the Celsius value; `round(None)` would raise. -/
def summaryClimateStr (ci : ClimateInfo) : Except String String :=
  if qTruthy ci.outside_temperature_c then
    match ci.outside_temperature_f with
    | some f => .ok (toString (pyRound f) ++ "°F ("
        ++ pyStrOfOptQ ci.outside_temperature_c ++ "°C)")
    | none => .error "type NoneType doesn't define __round__ method"
  else .ok "Not available"

/-- The dictionary-literal body of `get_status_summary`: consumes the six
sub-projection results; subscripting a failed sub-projection (an error
string) raises `TypeError`, caught by the surrounding `try`. -/
def buildSummary (vi : Sum VehicleInfo String) (bi : Sum BatteryInfo String)
    (di : Sum DoorInfo String) (ci : Sum ClimateInfo String)
    (li : Sum LocationInfo String) (ti : Sum TireInfo String) :
    Except String StatusSummary :=
  match vi with
  | .inr _ => .error strIndicesErr
  | .inl v =>
  match di with
  | .inr _ => .error strIndicesErr
  | .inl d =>
  match bi with
  | .inr _ => .error strIndicesErr
  | .inl b =>
  match ci with
  | .inr _ => .error strIndicesErr
  | .inl c =>
  match li with
  | .inr _ => .error strIndicesErr
  | .inl l =>
  match ti with
  | .inr _ => .error strIndicesErr
  | .inl t => do
    let climateStr ← summaryClimateStr c
    let odometerStr :=
      if qTruthy v.odometer_km then
        pyStrOfOptInt v.odometer_miles ++ " miles ("
          ++ pyStrOfOptQ v.odometer_km ++ " km)"
      else "Not available"
    let doorsLockedStr :=
      if dictGet d.locks (some "ALL_DOORS") == some (some "LOCKED") then
        "All Locked"
      else "Not All Locked"
    let evChargeStr :=
      if qTruthy b.ev_battery_charge then
        pyStrOfOptQ b.ev_battery_charge ++ "%"
      else "Not available"
    let rangeStr :=
      if qTruthy b.ev_battery_range_km then
        toString b.ev_battery_range_miles ++ " miles ("
          ++ pyStrOfOptQ b.ev_battery_range_km ++ " km)"
      else "Not available"
    let timeToFullStr :=
      if qTruthy b.ev_time_to_full_charge then
        pyStrOfOptQ b.ev_time_to_full_charge ++ " minutes"
      else "Not available"
    let tiresStr :=
      if (t.statuses.map (fun p => p.2)).all
          (fun v2 => if strTruthy v2 then v2 == some "NORMAL" else true) then
        "All Normal"
      else "Check Tire Status"
    return { vehicle_status := ⟨odometerStr,
                 pyOrStr v.ignition_status "Not available",
                 doorsLockedStr, pyOrStr d.alarm "Not available"⟩,
             battery_status := ⟨evChargeStr, rangeStr, timeToFullStr⟩,
             climate := ⟨climateStr⟩,
             location := ⟨l.latitude, l.longitude⟩,
             tires := tiresStr }

/-- `FordPassAPI.get_status_summary`: each of the six sub-projections
performs its own fetch, threading the token state; any exception inside
the `try` (in particular the `TypeError` from subscripting a failed
sub-projection) becomes the summary error string. -/
def get_status_summary (env : Env) (st : APIState) (now : ℚ) :
    Sum StatusSummary String × APIState × List Request :=
  let rv := get_vehicle_info env st now
  let rb := get_battery_status env rv.2.1 now
  let rd := get_door_status env rb.2.1 now
  let rc := get_climate_status env rd.2.1 now
  let rl := get_location env rc.2.1 now
  let rt := get_tire_status env rl.2.1 now
  let reqs := rv.2.2 ++ rb.2.2 ++ rd.2.2 ++ rc.2.2 ++ rl.2.2 ++ rt.2.2
  match buildSummary rv.1 rb.1 rd.1 rc.1 rl.1 rt.1 with
  | .ok s => (.inl s, rt.2.1, reqs)
  | .error e => (.inr ("Unable to retrieve status summary: " ++ e),
                 rt.2.1, reqs)

/-- The persisted fields of `BatteryMonitor`: `self.last_range` and
`self.last_charge` (absent on first run). -/
structure MonitorState where
  last_range : Option ℤ
  last_charge : Option ℤ
deriving DecidableEq

/-- A desktop notification request handed to `show_notification`. -/
structure Notification where
  title : String
  message : String
deriving DecidableEq

/-- Observable outcome of one `check_battery` call: its return value, the
monitor fields afterwards, the notification raised (if any), and whether
`save_state` ran. -/
structure CheckResult where
  changed : Bool
  monitor : MonitorState
  notification : Option Notification
  saved : Bool
deriving DecidableEq

/-- Body of `BatteryMonitor.check_battery` after the battery-status fetch.
When the fetch failed, `battery_info` is an error string and
`battery_info.get(...)` raises `AttributeError`, caught by the method's
own `except`, which returns `False` without touching any state.  The
`notifyResult` argument is the boolean returned by `show_notification`;
the source discards it. -/
def check_battery_core (binfo : Sum BatteryInfo String) (ms : MonitorState)
    (notifyResult : Bool) : CheckResult :=
  match binfo with
  | .inr _ =>
    { changed := false, monitor := ms, notification := none, saved := false }
  | .inl info =>
    let raw_range : Option ℤ := some info.ev_battery_range_miles
    let raw_charge : Option ℚ := info.ev_battery_actual_charge
    match raw_range, raw_charge with
    | some rr, some rc =>
      -- round() of the already-integral miles value is the value itself
      let current_range : ℤ := rr
      let current_charge : ℤ := pyRound rc
      let current_range_str := toString current_range
      let current_charge_str := toString current_charge
      -- the no-notification update branch (also taken on first run)
      let update : CheckResult :=
        { changed := false,
          monitor := { last_range := some current_range,
                       last_charge := some current_charge },
          notification := none, saved := true }
      match ms.last_range, ms.last_charge with
      | some lr, some lc =>
        if current_range ≠ lr ∨ current_charge ≠ lc then
          let rmsg :=
            if current_range ≠ lr then
              "Range has "
                ++ (if current_range - lr > 0 then "increased" else "decreased")
                ++ " by " ++ toString (current_range - lr).natAbs
                ++ " miles. "
            else ""
          let cmsg :=
            if current_charge ≠ lc then
              "Charge has "
                ++ (if current_charge - lc > 0 then "increased" else "decreased")
                ++ " by " ++ toString (current_charge - lc).natAbs
                ++ "%. "
            else ""
          let message := "Range: " ++ current_range_str ++ " miles\nCharge: "
            ++ current_charge_str ++ "%\n" ++ rmsg ++ cmsg
          let _ := notifyResult
          { changed := true,
            monitor := { last_range := some current_range,
                         last_charge := some current_charge },
            notification := some { title := "Ford EV Battery Update",
                                   message := message },
            saved := true }
        else update
      | _, _ => update
    | _, _ =>
      -- "Battery information not available": return False, no state change
      { changed := false, monitor := ms, notification := none, saved := false }

/-- `BatteryMonitor.check_battery`: fetch the battery status and run the
comparison body. -/
def check_battery (env : Env) (st : APIState) (now : ℚ) (ms : MonitorState)
    (notifyResult : Bool) : CheckResult × APIState × List Request :=
  let (binfo, st1, reqs) := get_battery_status env st now
  (check_battery_core binfo ms notifyResult, st1, reqs)

/-- Observable outcome of one iteration of the `BatteryMonitor.run` loop. -/
structure RunStepResult where
  changed : Bool
  monitor : MonitorState
  api : APIState
  requests : List Request
  notification : Option Notification
  saved : Bool
  sleepSeconds : ℚ
deriving DecidableEq

/-- One iteration of `BatteryMonitor.run`'s `while True` loop.
`check_battery` is total (its whole body sits under `try`/`except`), so the
loop's own `except Exception` handler — which would sleep 30 seconds — is
unreachable, and the iteration always sleeps the configured interval. -/
def run_step (env : Env) (st : APIState) (now : ℚ) (ms : MonitorState)
    (notifyResult : Bool) (interval : ℚ) : RunStepResult :=
  let (cr, st1, reqs) := check_battery env st now ms notifyResult
  { changed := cr.changed, monitor := cr.monitor, api := st1,
    requests := reqs, notification := cr.notification, saved := cr.saved,
    sleepSeconds := interval }

/-- JSON rendering of an optional integer (`json.dump`). -/
def jsonOptInt : Option ℤ → String
  | none => "null"
  | some z => toString z

/-- The record `BatteryMonitor.save_state` serializes:
`{"last_range": ..., "last_charge": ..., "last_update": "..."}`. -/
def state_json (ms : MonitorState) (last_update : String) : String :=
  "\x7b\"last_range\": " ++ jsonOptInt ms.last_range
    ++ ", \"last_charge\": " ++ jsonOptInt ms.last_charge
    ++ ", \"last_update\": \"" ++ last_update ++ "\"\x7d"

/-- The successive contents of the canonical state file during
`BatteryMonitor.save_state`, which runs `open(self.config_file, 'w')`
followed by `json.dump`: opening with mode `'w'` truncates the file in
place, then the serialized record is written out incrementally, so the
path holds the old record, then the empty file, then each prefix of the
new record. -/
def save_state_trace (old new : String) : List String :=
  old :: (List.range (new.length + 1)).map (fun k => new.take k)

/-- The atomic replace-on-save discipline claimed by the spec: at every
instant the canonical path holds either the complete old record or the
complete new record. -/
def atomicReplace (old new : String) : Prop :=
  ∀ c ∈ save_state_trace old new, c = old ∨ c = new

/-- Helper: a projection accessor turns a failed fetch into its
`"Unable to retrieve ..."` string. -/
theorem projectStatus_fetch_error {α : Type} (p : String)
    (f : RawStatus → Except String α) (env : Env) (st : APIState) (now : ℚ)
    (e : String) (st1 : APIState) (reqs : List Request)
    (h : get_vehicle_status env st now = (.error e, st1, reqs)) :
    projectStatus p f env st now = (.inr (p ++ e), st1, reqs) := by
  simp [projectStatus, h]

/-- Helper: a non-200 telemetry response makes every raw-status fetch
raise. -/
theorem gvs_error_of_telemetry (env : Env) (st : APIState) (now : ℚ)
    (h : env.telemetry.status_code ≠ 200) :
    ∃ e st1 reqs, get_vehicle_status env st now = (.error e, st1, reqs) := by
  unfold get_vehicle_status
  match hq : get_auth_token env st now with
  | (.error e, st1, reqs1) => exact ⟨e, st1, reqs1, by simp [hq]⟩
  | (.ok tok, st1, reqs1) =>
    exact ⟨"Vehicle status request failed: Status request failed: "
        ++ toString env.telemetry.status_code ++ " - " ++ env.telemetry.text,
      st1, reqs1 ++ [Request.telemetry], by simp [hq, h]⟩

/-- Helper: the notification/state behaviour of `check_battery`'s
comparison body on a reading whose charge value is present. -/
theorem check_battery_core_spec (info : BatteryInfo) (ms : MonitorState)
    (b : Bool) (rc : ℚ) (hvalid : info.ev_battery_actual_charge = some rc) :
    ((check_battery_core (.inl info) ms b).notification.isSome = true ↔
      (ms.last_range.isSome = true ∧ ms.last_charge.isSome = true ∧
       (some info.ev_battery_range_miles ≠ ms.last_range ∨
        some (pyRound rc) ≠ ms.last_charge)))
    ∧ (check_battery_core (.inl info) ms b).monitor =
        ⟨some info.ev_battery_range_miles, some (pyRound rc)⟩
    ∧ (check_battery_core (.inl info) ms b).saved = true := by
  obtain ⟨olr, olc⟩ := ms
  cases olr with
  | none => simp [check_battery_core, hvalid]
  | some lr =>
    cases olc with
    | none => simp [check_battery_core, hvalid]
    | some lc =>
      by_cases h1 : info.ev_battery_range_miles = lr <;>
        by_cases h2 : pyRound rc = lc <;>
          simp [check_battery_core, hvalid, h1, h2]

/-- Claim C1: for a poll cycle that obtains a valid battery reading
(the actual-charge value is present; the derived miles value always is), a
notification is raised if and only if the stored monitor state had both
`last_range` and `last_charge` present and at least one of the new rounded
range or rounded charge differs from the stored value; the state is then
populated with the new reading, so on a first run (absent prior fields) no
notification fires and the state is established. -/
theorem C1_notification_iff (env : Env) (st : APIState) (now : ℚ)
    (ms : MonitorState) (b : Bool) (info : BatteryInfo) (st1 : APIState)
    (reqs : List Request) (rc : ℚ)
    (hfetch : get_battery_status env st now = (.inl info, st1, reqs))
    (hvalid : info.ev_battery_actual_charge = some rc) :
    (((check_battery env st now ms b).1.notification.isSome = true ↔
       (ms.last_range.isSome = true ∧ ms.last_charge.isSome = true ∧
        (some info.ev_battery_range_miles ≠ ms.last_range ∨
         some (pyRound rc) ≠ ms.last_charge)))
     ∧ (check_battery env st now ms b).1.monitor =
         ⟨some info.ev_battery_range_miles, some (pyRound rc)⟩
     ∧ (ms.last_range = none ∨ ms.last_charge = none →
         (check_battery env st now ms b).1.notification = none)) := by
  have hcb : check_battery env st now ms b =
      (check_battery_core (.inl info) ms b, st1, reqs) := by
    simp [check_battery, hfetch]
  have hspec := check_battery_core_spec info ms b rc hvalid
  rw [hcb]
  refine ⟨hspec.1, hspec.2.1, ?_⟩
  intro habs
  have hiff := hspec.1
  cases hnot : (check_battery_core (Sum.inl info) ms b).notification with
  | none => rfl
  | some n =>
    have : ms.last_range.isSome = true ∧ ms.last_charge.isSome = true ∧ _ :=
      hiff.mp (by simp [hnot])
    rcases habs with h | h
    · rw [h] at this; simp at this
    · rw [h] at this; simp at this

/-- Concrete metrics for the C1 witness: range 100 km, actual charge 82%. -/
def c1Metrics : Metrics :=
  { xevBatteryActualStateOfCharge := some 82, xevBatteryRange := some 100 }

/-- Concrete network oracle for the C1 witness: telemetry succeeds. -/
def c1Env : Env :=
  { primary := ⟨500, none, none, none, ""⟩,
    exchange := ⟨500, none, none, ""⟩,
    telemetry := ⟨200, ⟨c1Metrics⟩, ""⟩ }

/-- Concrete token state for the C1 witness: valid cached exchange token. -/
def c1State : APIState :=
  { ford_token := some "F", autonomic_token := some "A",
    token_expiration := 1000 }

/-- The battery reading obtained in the C1 witness. -/
def c1Info : BatteryInfo := batteryInfoOf c1Metrics

/-- Witness for C1: on a first run (both prior fields absent) with a valid
concrete reading, no notification fires. -/
theorem C1_notification_iff_witness :
    get_battery_status c1Env c1State 0 =
      (.inl c1Info, c1State, [Request.telemetry])
    ∧ c1Info.ev_battery_actual_charge = some 82
    ∧ (check_battery c1Env c1State 0 ⟨none, none⟩ false).1.notification = none := by
  have hfetch : get_battery_status c1Env c1State 0 =
      (.inl c1Info, c1State, [Request.telemetry]) := rfl
  exact ⟨hfetch, rfl,
    (C1_notification_iff c1Env c1State 0 ⟨none, none⟩ false c1Info c1State
      [Request.telemetry] 82 hfetch rfl).2.2 (Or.inl rfl)⟩

/-- Helper: `get_battery_status` on a failed fetch. -/
theorem battery_fetch_error (env : Env) (st st1 : APIState) (now : ℚ)
    (e : String) (reqs : List Request)
    (h : get_vehicle_status env st now = (.error e, st1, reqs)) :
    get_battery_status env st now =
      (.inr ("Unable to retrieve battery information: " ++ e), st1, reqs) := by
  unfold get_battery_status
  exact projectStatus_fetch_error _ _ env st now e st1 reqs h

/-- Claim C2 (amended): a non-200 telemetry response is converted to an
error string inside the battery projection; `check_battery` catches the
resulting failure and returns `False`, leaving the monitor state
unmodified, unsaved, with no notification, and the loop sleeps the normal
configured interval (the 30-second fault-recovery branch is not taken). -/
theorem C2_telemetry_failure_cycle (env : Env) (st : APIState) (now : ℚ)
    (ms : MonitorState) (b : Bool) (interval : ℚ)
    (h : env.telemetry.status_code ≠ 200) :
    (run_step env st now ms b interval).monitor = ms
    ∧ (run_step env st now ms b interval).saved = false
    ∧ (run_step env st now ms b interval).notification = none
    ∧ (run_step env st now ms b interval).changed = false
    ∧ (run_step env st now ms b interval).sleepSeconds = interval := by
  obtain ⟨e, st1, reqs, hgvs⟩ := gvs_error_of_telemetry env st now h
  have hbs := battery_fetch_error env st st1 now e reqs hgvs
  simp [run_step, check_battery, hbs, check_battery_core]

/-- Concrete network oracle for C2: telemetry returns HTTP 401. -/
def c2Env : Env :=
  { primary := ⟨500, none, none, none, ""⟩,
    exchange := ⟨500, none, none, ""⟩,
    telemetry := ⟨401, ⟨{}⟩, "Unauthorized"⟩ }

/-- Concrete token state for C2: valid cached exchange token, so the cycle
reaches the telemetry GET. -/
def c2State : APIState :=
  { ford_token := some "F", autonomic_token := some "A",
    token_expiration := 1000 }

/-- Counterexample to C2 as stated: with telemetry returning HTTP 401 and
the default 60-second interval, the loop sleeps 60 seconds, not the
30-second fault-recovery delay the claim asserts. -/
theorem C2_counterexample :
    (run_step c2Env c2State 0 ⟨some 250, some 80⟩ false 60).sleepSeconds = 60
    ∧ (run_step c2Env c2State 0 ⟨some 250, some 80⟩ false 60).sleepSeconds ≠ 30 := by
  constructor
  · rfl
  · intro hcontra
    have h60 : (60 : ℚ) = 30 := by
      calc (60 : ℚ) = (run_step c2Env c2State 0 ⟨some 250, some 80⟩ false
          60).sleepSeconds := rfl
        _ = 30 := hcontra
    norm_num at h60

/-- Witness for the amended C2 at the concrete 401 scenario. -/
theorem C2_telemetry_failure_cycle_witness :
    c2Env.telemetry.status_code ≠ 200
    ∧ (run_step c2Env c2State 0 ⟨some 250, some 80⟩ false 60).monitor =
        ⟨some 250, some 80⟩
    ∧ (run_step c2Env c2State 0 ⟨some 250, some 80⟩ false 60).saved = false := by
  have h : c2Env.telemetry.status_code ≠ 200 := by decide
  have hh := C2_telemetry_failure_cycle c2Env c2State 0 ⟨some 250, some 80⟩
    false 60 h
  exact ⟨h, hh.1, hh.2.1⟩

/-- Helper: `get_ford_token` on a cache miss with a successful primary-auth
response caches the returned token for 300 seconds. -/
theorem ford_token_network_success (env : Env) (st : APIState) (now : ℚ)
    (hmiss : ¬ (strTruthy st.ford_token = true ∧ now < st.token_expiration))
    (h200 : env.primary.status_code = 200)
    (hst : env.primary.status = some 200) :
    get_ford_token env st now =
      (.ok env.primary.access_token,
       { st with ford_token := env.primary.access_token,
                 token_expiration := now + 300 },
       [Request.primaryAuth]) := by
  unfold get_ford_token
  rw [if_neg hmiss]
  simp [h200, hst]

/-- Helper: `get_autonomic_token` on a full two-stage refresh with both
stages succeeding. -/
theorem autonomic_token_network_success (env : Env) (st : APIState) (now : ℚ)
    (hamiss : ¬ (strTruthy st.autonomic_token = true ∧ now < st.token_expiration))
    (hfmiss : ¬ (strTruthy st.ford_token = true ∧ now < st.token_expiration))
    (h200 : env.primary.status_code = 200)
    (hst : env.primary.status = some 200)
    (hex : env.exchange.status_code = 200) :
    get_autonomic_token env st now =
      (.ok env.exchange.access_token,
       { ford_token := env.primary.access_token,
         autonomic_token := env.exchange.access_token,
         token_expiration := now + ((env.exchange.expires_in.getD 3600 : ℤ) : ℚ) - 60 },
       [Request.primaryAuth, Request.tokenExchange]) := by
  unfold get_autonomic_token
  rw [if_neg hamiss, ford_token_network_success env st now hfmiss h200 hst]
  simp [hex]

/-- Claim C3: while a truthy exchange token is cached and unexpired,
`get_autonomic_token` returns it with no network request; once the expiry
timestamp has passed (and the primary stage succeeds), the call issues
exactly the two-stage exchange: the primary-auth POST followed by the
token-exchange POST. -/
theorem C3_exchange_token_cache :
    (∀ (env : Env) (st : APIState) (now : ℚ),
      strTruthy st.autonomic_token = true → now < st.token_expiration →
      get_autonomic_token env st now = (.ok st.autonomic_token, st, []))
    ∧ (∀ (env : Env) (st : APIState) (now : ℚ),
      st.token_expiration ≤ now →
      env.primary.status_code = 200 → env.primary.status = some 200 →
      (get_autonomic_token env st now).2.2 =
        [Request.primaryAuth, Request.tokenExchange]) := by
  constructor
  · intro env st now h1 h2
    unfold get_autonomic_token
    rw [if_pos ⟨h1, h2⟩]
  · intro env st now hexp h200 hst
    have hnlt : ¬ now < st.token_expiration := not_lt.mpr hexp
    have hamiss : ¬ (strTruthy st.autonomic_token = true ∧
        now < st.token_expiration) := fun hc => hnlt hc.2
    have hfmiss : ¬ (strTruthy st.ford_token = true ∧
        now < st.token_expiration) := fun hc => hnlt hc.2
    have hford := ford_token_network_success env st now hfmiss h200 hst
    unfold get_autonomic_token
    rw [if_neg hamiss, hford]
    by_cases hex : env.exchange.status_code = 200 <;> simp [hex]

/-- Concrete network oracle for the C3/C7 witnesses: both auth stages
succeed, `expires_in` is 3600. -/
def c3Env : Env :=
  { primary := ⟨200, some 200, some "FORDTOK", none, ""⟩,
    exchange := ⟨200, some "AUTOTOK", some 3600, ""⟩,
    telemetry := ⟨200, ⟨{}⟩, ""⟩ }

/-- Concrete state for the C3 cache-hit witness. -/
def c3HitState : APIState :=
  { ford_token := some "F", autonomic_token := some "A",
    token_expiration := 1000 }

/-- Concrete state for the C3 expired witness. -/
def c3ExpState : APIState :=
  { ford_token := some "F", autonomic_token := some "A",
    token_expiration := 10 }

/-- Witness for C3: a cache hit issues no request, an expired call issues
exactly the two network requests. -/
theorem C3_exchange_token_cache_witness :
    strTruthy c3HitState.autonomic_token = true
    ∧ (0 : ℚ) < c3HitState.token_expiration
    ∧ get_autonomic_token c3Env c3HitState 0 = (.ok (some "A"), c3HitState, [])
    ∧ c3ExpState.token_expiration ≤ (10 : ℚ)
    ∧ (get_autonomic_token c3Env c3ExpState 10).2.2 =
        [Request.primaryAuth, Request.tokenExchange] := by
  refine ⟨by decide, by decide, ?_, by decide, ?_⟩
  · exact C3_exchange_token_cache.1 c3Env c3HitState 0 (by decide) (by decide)
  · exact C3_exchange_token_cache.2 c3Env c3ExpState 10 (by decide) rfl rfl

/-- Claim C7: a successful primary authentication caches the primary token
with a fixed 300-second validity window, and a successful token exchange
caches the exchange token with expiry `now + expires_in - 60`. -/
theorem C7_token_expiry_arithmetic :
    (∀ (env : Env) (st : APIState) (now : ℚ),
      ¬ (strTruthy st.ford_token = true ∧ now < st.token_expiration) →
      env.primary.status_code = 200 → env.primary.status = some 200 →
      (get_ford_token env st now).2.1.token_expiration = now + 300)
    ∧ (∀ (env : Env) (st : APIState) (now : ℚ) (e : ℤ),
      ¬ (strTruthy st.autonomic_token = true ∧ now < st.token_expiration) →
      ¬ (strTruthy st.ford_token = true ∧ now < st.token_expiration) →
      env.primary.status_code = 200 → env.primary.status = some 200 →
      env.exchange.status_code = 200 → env.exchange.expires_in = some e →
      (get_autonomic_token env st now).2.1.token_expiration =
        now + (e : ℚ) - 60) := by
  constructor
  · intro env st now hmiss h200 hst
    rw [ford_token_network_success env st now hmiss h200 hst]
  · intro env st now e hamiss hfmiss h200 hst hex hei
    rw [autonomic_token_network_success env st now hamiss hfmiss h200 hst hex]
    simp [hei]

/-- Witness for C7 starting from the freshly constructed token storage. -/
theorem C7_token_expiry_arithmetic_witness :
    ¬ (strTruthy initAPIState.ford_token = true ∧
        (0 : ℚ) < initAPIState.token_expiration)
    ∧ (get_ford_token c3Env initAPIState 0).2.1.token_expiration = 0 + 300
    ∧ (get_autonomic_token c3Env initAPIState 0).2.1.token_expiration =
        0 + ((3600 : ℤ) : ℚ) - 60 := by
  have hmiss : ¬ (strTruthy initAPIState.ford_token = true ∧
      (0 : ℚ) < initAPIState.token_expiration) := by decide
  have hamiss : ¬ (strTruthy initAPIState.autonomic_token = true ∧
      (0 : ℚ) < initAPIState.token_expiration) := by decide
  exact ⟨hmiss,
    C7_token_expiry_arithmetic.1 c3Env initAPIState 0 hmiss rfl rfl,
    C7_token_expiry_arithmetic.2 c3Env initAPIState 0 3600 hamiss hmiss
      rfl rfl rfl rfl⟩

/-- Concrete token state for C10: a truthy cached primary token, no
exchange token, and a shared expiry still in the future (the state left
behind when the primary stage succeeded but the exchange stage did not
produce a token). -/
def c10State : APIState :=
  { ford_token := some "FORD", autonomic_token := none,
    token_expiration := 100 }

/-- Counterexample to C10 as stated: at `c10State` the exchange-token cache
check fails while the primary-token cache check succeeds, so the refresh
performs only the exchange stage and reuses the cached primary token —
not "both stages on every refresh". -/
theorem C10_counterexample :
    ¬ (strTruthy c10State.autonomic_token = true ∧
        (0 : ℚ) < c10State.token_expiration)
    ∧ (strTruthy c10State.ford_token = true ∧
        (0 : ℚ) < c10State.token_expiration)
    ∧ (get_autonomic_token c3Env c10State 0).2.2 = [Request.tokenExchange]
    ∧ (get_autonomic_token c3Env c10State 0).2.2 ≠
        [Request.primaryAuth, Request.tokenExchange] := by
  refine ⟨by decide, ⟨by decide, by decide⟩, rfl, ?_⟩
  intro h
  have : ([Request.tokenExchange] : List Request) =
      [Request.primaryAuth, Request.tokenExchange] := by
    calc ([Request.tokenExchange] : List Request)
        = (get_autonomic_token c3Env c10State 0).2.2 := rfl
      _ = [Request.primaryAuth, Request.tokenExchange] := h
  simp at this

/-- Claim C10 (amended): the two tokens share one expiry timestamp: a
successful exchange overwrites it with the exchange token's expiry, and
once it has passed both cache checks fail, so the refresh performs both
stages; but when the exchange token is merely absent/falsy while the
shared timestamp is still in the future, the cached primary token is
reused and only the exchange stage is performed. -/
theorem C10_shared_expiry :
    (∀ (env : Env) (st : APIState) (now : ℚ),
      ¬ (strTruthy st.autonomic_token = true ∧ now < st.token_expiration) →
      ¬ (strTruthy st.ford_token = true ∧ now < st.token_expiration) →
      env.primary.status_code = 200 → env.primary.status = some 200 →
      env.exchange.status_code = 200 →
      (get_autonomic_token env st now).2.1.token_expiration =
        now + ((env.exchange.expires_in.getD 3600 : ℤ) : ℚ) - 60)
    ∧ (∀ (env : Env) (st : APIState) (now : ℚ),
      st.token_expiration ≤ now →
      env.primary.status_code = 200 → env.primary.status = some 200 →
      (get_autonomic_token env st now).2.2 =
        [Request.primaryAuth, Request.tokenExchange])
    ∧ (∀ (env : Env) (st : APIState) (now : ℚ),
      strTruthy st.autonomic_token = false →
      strTruthy st.ford_token = true → now < st.token_expiration →
      (get_autonomic_token env st now).2.2 = [Request.tokenExchange]) := by
  refine ⟨?_, ?_, ?_⟩
  · intro env st now hamiss hfmiss h200 hst hex
    rw [autonomic_token_network_success env st now hamiss hfmiss h200 hst hex]
  · intro env st now hexp h200 hst
    have hnlt : ¬ now < st.token_expiration := not_lt.mpr hexp
    have hamiss : ¬ (strTruthy st.autonomic_token = true ∧
        now < st.token_expiration) := fun hc => hnlt hc.2
    have hfmiss : ¬ (strTruthy st.ford_token = true ∧
        now < st.token_expiration) := fun hc => hnlt hc.2
    have hford := ford_token_network_success env st now hfmiss h200 hst
    unfold get_autonomic_token
    rw [if_neg hamiss, hford]
    by_cases hex : env.exchange.status_code = 200 <;> simp [hex]
  · intro env st now habs hford hlt
    have hamiss : ¬ (strTruthy st.autonomic_token = true ∧
        now < st.token_expiration) := by simp [habs]
    have hhit : get_ford_token env st now = (.ok st.ford_token, st, []) := by
      unfold get_ford_token
      rw [if_pos ⟨hford, hlt⟩]
    unfold get_autonomic_token
    rw [if_neg hamiss, hhit]
    by_cases hex : env.exchange.status_code = 200 <;> simp [hex]

/-- Witness for the amended C10 at the concrete states. -/
theorem C10_shared_expiry_witness :
    (get_autonomic_token c3Env initAPIState 0).2.1.token_expiration =
      0 + ((3600 : ℤ) : ℚ) - 60
    ∧ c3ExpState.token_expiration ≤ (10 : ℚ)
    ∧ (get_autonomic_token c3Env c3ExpState 10).2.2 =
        [Request.primaryAuth, Request.tokenExchange]
    ∧ strTruthy c10State.autonomic_token = false
    ∧ (0 : ℚ) < c10State.token_expiration
    ∧ (get_autonomic_token c3Env c10State 0).2.2 = [Request.tokenExchange] := by
  refine ⟨?_, by decide, ?_, by decide, by decide, ?_⟩
  · exact C10_shared_expiry.1 c3Env initAPIState 0 (by decide) (by decide)
      rfl rfl rfl
  · exact C10_shared_expiry.2.1 c3Env c3ExpState 10 (by decide) rfl rfl
  · exact C10_shared_expiry.2.2 c3Env c10State 0 (by decide) (by decide)
      (by decide)

/-- A raw status in which every metric is absent. -/
def emptyMetrics : Metrics := {}

/-- Counterexample to C4 as stated: with no range metric the battery
projection does yield the not-available marker for the kilometre field,
but the derived miles field is the numeric substitute `0`, not a
not-available marker. -/
theorem C4_counterexample :
    (batteryInfoOf emptyMetrics).ev_battery_range_km = none
    ∧ (batteryInfoOf emptyMetrics).ev_battery_range_miles = 0 := by
  constructor
  · rfl
  · show pyRound (orZero none * kmToMiles) = 0
    have h : orZero none * kmToMiles = 0 := by
      rw [show orZero none = (0 : ℚ) from rfl, zero_mul]
    rw [h]; decide

/-- Claim C4 (amended): the battery projection never raises, and every
absent consulted metric surfaces as the `none` marker for its field —
except the derived `ev_battery_range_miles` field, which substitutes the
number `0` when the range metric is absent. -/
theorem C4_absent_metric_markers (m : Metrics) :
    (m.xevBatteryRange = none →
      (batteryInfoOf m).ev_battery_range_km = none
      ∧ (batteryInfoOf m).ev_battery_range_miles = 0)
    ∧ (m.batteryStateOfCharge = none →
      (batteryInfoOf m).main_battery_charge = none)
    ∧ (m.xevBatteryStateOfCharge = none →
      (batteryInfoOf m).ev_battery_charge = none)
    ∧ (m.xevBatteryActualStateOfCharge = none →
      (batteryInfoOf m).ev_battery_actual_charge = none)
    ∧ (m.xevBatteryCapacity = none →
      (batteryInfoOf m).ev_battery_capacity_kwh = none)
    ∧ (m.xevBatteryEnergyRemaining = none →
      (batteryInfoOf m).ev_battery_energy_remaining_kwh = none)
    ∧ (m.xevBatteryTemperature = none →
      (batteryInfoOf m).ev_battery_temperature = none)
    ∧ (m.xevBatteryVoltage = none →
      (batteryInfoOf m).ev_battery_voltage = none)
    ∧ (m.xevBatteryPerformanceStatus = none →
      (batteryInfoOf m).ev_battery_performance = none)
    ∧ (m.xevBatteryTimeToFullCharge = none →
      (batteryInfoOf m).ev_time_to_full_charge = none) := by
  refine ⟨?_, ?_, ?_, ?_, ?_, ?_, ?_, ?_, ?_, ?_⟩ <;> intro h
  · constructor
    · simp [batteryInfoOf, h]
    · simp only [batteryInfoOf, h]
      have hz : orZero none * kmToMiles = 0 := by
        rw [show orZero none = (0 : ℚ) from rfl, zero_mul]
      rw [hz]; decide
  all_goals simp [batteryInfoOf, h]

/-- Witness for the amended C4 at the all-absent raw status. -/
theorem C4_absent_metric_markers_witness :
    emptyMetrics.xevBatteryRange = none
    ∧ (batteryInfoOf emptyMetrics).ev_battery_range_km = none
    ∧ (batteryInfoOf emptyMetrics).ev_battery_range_miles = 0
    ∧ (batteryInfoOf emptyMetrics).ev_battery_actual_charge = none := by
  have h := C4_absent_metric_markers emptyMetrics
  exact ⟨rfl, (h.1 rfl).1, (h.1 rfl).2, h.2.2.2.1 rfl⟩

/-- Claim C8: for a present raw kilometre range value `q`, the derived
miles value is `round(q * 0.621371)`; in particular `q = 100` yields
exactly 62 miles. -/
theorem C8_km_to_miles_conversion :
    (∀ (m : Metrics) (q : ℚ), m.xevBatteryRange = some q →
      (batteryInfoOf m).ev_battery_range_miles = pyRound (q * kmToMiles))
    ∧ (∀ m : Metrics, m.xevBatteryRange = some 100 →
      (batteryInfoOf m).ev_battery_range_miles = 62) := by
  constructor
  · intro m q h
    simp [batteryInfoOf, h, orZero]
  · intro m h
    have h1 : (batteryInfoOf m).ev_battery_range_miles =
        pyRound ((100 : ℚ) * kmToMiles) := by
      simp [batteryInfoOf, h, orZero]
    rw [h1]
    have h2 : (100 : ℚ) * kmToMiles = mkRat 621371 10000 := by
      rw [kmToMiles, Rat.mkRat_eq_div]; norm_num
    rw [h2]; decide

/-- Concrete raw status for the C8 witness: range metric 100 km. -/
def c8Metrics : Metrics := { xevBatteryRange := some 100 }

/-- Witness for C8: the projection of a 100 km range yields 62 miles. -/
theorem C8_km_to_miles_conversion_witness :
    c8Metrics.xevBatteryRange = some 100
    ∧ (batteryInfoOf c8Metrics).ev_battery_range_miles = 62
    ∧ (batteryInfoOf c8Metrics).ev_battery_range_miles =
        pyRound ((100 : ℚ) * kmToMiles) := by
  exact ⟨rfl, C8_km_to_miles_conversion.2 c8Metrics rfl,
    C8_km_to_miles_conversion.1 c8Metrics 100 rfl⟩

/-- The persisted record before the C5 save. -/
def c5Old : String := state_json ⟨some 250, some 80⟩ "2024-01-01 00:00:00"

/-- The persisted record being written by the C5 save. -/
def c5New : String := state_json ⟨some 245, some 82⟩ "2024-01-01 00:01:00"

/-- Counterexample to C5 as stated: during `save_state` the canonical path
transiently holds the empty (truncated) file, which is neither the
complete old record nor the complete new record, so the write is not an
atomic replace. -/
theorem C5_counterexample : ¬ atomicReplace c5Old c5New := by
  intro h
  have h2 := h "" (by decide)
  rcases h2 with h1 | h1
  · exact absurd h1 (by decide)
  · exact absurd h1 (by decide)

/-- Claim C5 (amended): `save_state` truncates the canonical state file in
place and writes the new record incrementally, so during a save the path
holds either the complete old record or some prefix (possibly empty) of
the new record; a process killed mid-save can therefore leave a truncated
file at the canonical path. -/
theorem C5_save_overwrites_in_place (old new : String) :
    ∀ c ∈ save_state_trace old new,
      c = old ∨ ∃ k, k ≤ new.length ∧ c = new.take k := by
  intro c hc
  rcases List.mem_cons.mp hc with h | h
  · exact Or.inl h
  · right
    rcases List.mem_map.mp h with ⟨k, hk, rfl⟩
    exact ⟨k, Nat.lt_succ_iff.mp (List.mem_range.mp hk), rfl⟩

/-- Witness for the amended C5: the transient empty content observed during
the concrete save is a (zero-length) prefix of the new record. -/
theorem C5_save_overwrites_in_place_witness :
    "" ∈ save_state_trace c5Old c5New
    ∧ ("" = c5Old ∨ ∃ k, k ≤ c5New.length ∧ "" = c5New.take k) :=
  ⟨by decide, C5_save_overwrites_in_place c5Old c5New "" (by decide)⟩

/-- Substring containment of strings (Python `sub in s`), as a
proposition. -/
def strContains (s sub : String) : Prop := ∃ p q, s = p ++ sub ++ q

/-- The battery reading of the C6 scenario: 245 rounded miles, 82% actual
charge. -/
def c6Info : BatteryInfo :=
  { main_battery_charge := none, ev_battery_charge := none,
    ev_battery_actual_charge := some 82, ev_battery_range_km := none,
    ev_battery_range_miles := 245, ev_battery_capacity_kwh := none,
    ev_battery_energy_remaining_kwh := none, ev_battery_temperature := none,
    ev_battery_voltage := none, ev_battery_performance := none,
    ev_time_to_full_charge := none }

/-- The notification message produced in the C6 scenario. -/
def c6Message : String :=
  "Range: 245 miles\nCharge: 82%\nRange has decreased by 5 miles. Charge has increased by 2%. "

/-- Claim C6: for prior state (250 miles, 80%) and new reading
(245 miles, 82%), the delta message names both differing fields with
direction and absolute magnitude — it contains "Range has decreased by 5
miles" and "Charge has increased by 2%" — and the monitor state is updated
and marked saved whatever boolean the notifier returns. -/
theorem C6_delta_message (b : Bool) :
    check_battery_core (.inl c6Info) ⟨some 250, some 80⟩ b =
      { changed := true, monitor := ⟨some 245, some 82⟩,
        notification := some ⟨"Ford EV Battery Update", c6Message⟩,
        saved := true }
    ∧ strContains c6Message "Range has decreased by 5 miles"
    ∧ strContains c6Message "Charge has increased by 2%" := by
  refine ⟨?_, ?_, ?_⟩
  · cases b <;> decide
  · exact ⟨"Range: 245 miles\nCharge: 82%\n",
      ". Charge has increased by 2%. ", by decide⟩
  · exact ⟨"Range: 245 miles\nCharge: 82%\nRange has decreased by 5 miles. ",
      ". ", by decide⟩

/-- Witness for C6 with a failing notifier (`show_notification` returned
`False`): the state is still updated and saved. -/
theorem C6_delta_message_witness :
    check_battery_core (.inl c6Info) ⟨some 250, some 80⟩ false =
      { changed := true, monitor := ⟨some 245, some 82⟩,
        notification := some ⟨"Ford EV Battery Update", c6Message⟩,
        saved := true } :=
  (C6_delta_message false).1

/-- Claim C9: every projection accessor is total over all failures: when
the underlying raw-status fetch raises (auth or transport failure), each
accessor returns its `"Unable to retrieve ..."` error string instead of
raising, and `get_status_summary` — whose body trips over the failed
sub-projections' error strings — likewise returns its own error string. -/
theorem C9_projections_total :
    (∀ (env : Env) (st st1 : APIState) (now : ℚ) (e : String)
        (reqs : List Request),
      get_vehicle_status env st now = (.error e, st1, reqs) →
      (get_battery_status env st now).1 =
        .inr ("Unable to retrieve battery information: " ++ e)
      ∧ (get_door_status env st now).1 =
        .inr ("Unable to retrieve door information: " ++ e)
      ∧ (get_tire_status env st now).1 =
        .inr ("Unable to retrieve tire information: " ++ e)
      ∧ (get_location env st now).1 =
        .inr ("Unable to retrieve location information: " ++ e)
      ∧ (get_climate_status env st now).1 =
        .inr ("Unable to retrieve climate information: " ++ e)
      ∧ (get_vehicle_info env st now).1 =
        .inr ("Unable to retrieve vehicle information: " ++ e)
      ∧ (get_warning_indicators env st now).1 =
        .inr ("Unable to retrieve warning indicators: " ++ e)
      ∧ (get_ev_charging_status env st now).1 =
        .inr ("Unable to retrieve EV charging information: " ++ e)
      ∧ (get_trip_info env st now).1 =
        .inr ("Unable to retrieve trip information: " ++ e))
    ∧ (∀ (env : Env) (st : APIState) (now : ℚ),
      env.telemetry.status_code ≠ 200 →
      (get_status_summary env st now).1 =
        .inr ("Unable to retrieve status summary: " ++ strIndicesErr)) := by
  constructor
  · intro env st st1 now e reqs h
    refine ⟨?_, ?_, ?_, ?_, ?_, ?_, ?_, ?_, ?_⟩
    · unfold get_battery_status
      rw [projectStatus_fetch_error _ _ env st now e st1 reqs h]
    · unfold get_door_status
      rw [projectStatus_fetch_error _ _ env st now e st1 reqs h]
    · unfold get_tire_status
      rw [projectStatus_fetch_error _ _ env st now e st1 reqs h]
    · unfold get_location
      rw [projectStatus_fetch_error _ _ env st now e st1 reqs h]
    · unfold get_climate_status
      rw [projectStatus_fetch_error _ _ env st now e st1 reqs h]
    · unfold get_vehicle_info
      rw [projectStatus_fetch_error _ _ env st now e st1 reqs h]
    · unfold get_warning_indicators
      rw [projectStatus_fetch_error _ _ env st now e st1 reqs h]
    · unfold get_ev_charging_status
      rw [projectStatus_fetch_error _ _ env st now e st1 reqs h]
    · unfold get_trip_info
      rw [projectStatus_fetch_error _ _ env st now e st1 reqs h]
  · intro env st now htel
    obtain ⟨e1, stA, r1, h1⟩ := gvs_error_of_telemetry env st now htel
    have hv : get_vehicle_info env st now =
        (.inr ("Unable to retrieve vehicle information: " ++ e1), stA, r1) := by
      unfold get_vehicle_info
      exact projectStatus_fetch_error _ _ env st now e1 stA r1 h1
    obtain ⟨e2, stB, r2, h2⟩ := gvs_error_of_telemetry env stA now htel
    have hb : get_battery_status env stA now =
        (.inr ("Unable to retrieve battery information: " ++ e2), stB, r2) :=
      battery_fetch_error env stA stB now e2 r2 h2
    obtain ⟨e3, stC, r3, h3⟩ := gvs_error_of_telemetry env stB now htel
    have hd : get_door_status env stB now =
        (.inr ("Unable to retrieve door information: " ++ e3), stC, r3) := by
      unfold get_door_status
      exact projectStatus_fetch_error _ _ env stB now e3 stC r3 h3
    obtain ⟨e4, stD, r4, h4⟩ := gvs_error_of_telemetry env stC now htel
    have hc : get_climate_status env stC now =
        (.inr ("Unable to retrieve climate information: " ++ e4), stD, r4) := by
      unfold get_climate_status
      exact projectStatus_fetch_error _ _ env stC now e4 stD r4 h4
    obtain ⟨e5, stE, r5, h5⟩ := gvs_error_of_telemetry env stD now htel
    have hl : get_location env stD now =
        (.inr ("Unable to retrieve location information: " ++ e5), stE, r5) := by
      unfold get_location
      exact projectStatus_fetch_error _ _ env stD now e5 stE r5 h5
    obtain ⟨e6, stF, r6, h6⟩ := gvs_error_of_telemetry env stE now htel
    have ht : get_tire_status env stE now =
        (.inr ("Unable to retrieve tire information: " ++ e6), stF, r6) := by
      unfold get_tire_status
      exact projectStatus_fetch_error _ _ env stE now e6 stF r6 h6
    simp only [get_status_summary, hv, hb, hd, hc, hl, ht, buildSummary]

/-- Concrete state for the C9 witness. -/
def c9State : APIState :=
  { ford_token := some "F", autonomic_token := some "A",
    token_expiration := 1000 }

/-- The error message raised by the concrete 401 fetch of the C9
witness. -/
def c9FetchError : String :=
  "Vehicle status request failed: Status request failed: 401 - Unauthorized"

/-- Witness for C9: with telemetry answering HTTP 401, the battery and door
projections and the summary all return their error strings. -/
theorem C9_projections_total_witness :
    get_vehicle_status c2Env c9State 0 =
      (.error c9FetchError, c9State, [Request.telemetry])
    ∧ (get_battery_status c2Env c9State 0).1 =
        .inr ("Unable to retrieve battery information: " ++ c9FetchError)
    ∧ (get_door_status c2Env c9State 0).1 =
        .inr ("Unable to retrieve door information: " ++ c9FetchError)
    ∧ (get_status_summary c2Env c9State 0).1 =
        .inr ("Unable to retrieve status summary: " ++ strIndicesErr) := by
  have hgvs : get_vehicle_status c2Env c9State 0 =
      (.error c9FetchError, c9State, [Request.telemetry]) := rfl
  have hall := C9_projections_total.1 c2Env c9State c9State 0 c9FetchError
    [Request.telemetry] hgvs
  exact ⟨hgvs, hall.1, hall.2.1,
    C9_projections_total.2 c2Env c9State 0 (by decide)⟩
